import Mathlib

/-!
Shallow embedding of the SpeedyMeet browser extension content script
(contentScript.js) together with the popup settings script, and proofs about
the embedded operations.  Pure computations (URL construction, the meeting
code pattern matcher, branch selection) are translated as Lean functions;
the timer driven parts (auto-join countdown, bounded pollers) are modelled
as explicit event traces and tick predicates, with the page environment
(which DOM controls exist at which tick) passed in as explicit parameters.
-/

/-! ## String helpers

JavaScript s.includes(pat) is substring containment.  We model strings as
their character lists and decide containment by scanning suffixes. -/

/-- Checks that pat is a leading segment of cs, character by character. -/
def leadsChars : List Char → List Char → Bool
  | [], _ => true
  | _ :: _, [] => false
  | p :: ps, c :: cs => p == c && leadsChars ps cs

/-- Checks that pat occurs contiguously somewhere inside cs. -/
def occursChars (pat : List Char) : List Char → Bool
  | [] => leadsChars pat []
  | c :: cs => leadsChars pat (c :: cs) || occursChars pat cs

/-- Embedding of the JavaScript substring test s.includes(pat). -/
def strIncludes (s pat : String) : Bool :=
  occursChars pat.data s.data

/-! ## Destination URL construction (switchToNewCall, contentScript.js)

Source:
  const newQueryParams = newPath.includes(questionMark)
    ? newPath.includes(authuserEq)
      ? newPath
      : newPath + ampAuthuserZero
    : newPath + questionAuthuserZero
-/

/-- Embedding of the nested ternary in switchToNewCall that appends the
authuser=0 query parameter to the pending meeting path. -/
def addAuthuser (newPath : String) : String :=
  if strIncludes newPath "?" then
    if strIncludes newPath "authuser=" then newPath
    else newPath ++ "&authuser=0"
  else newPath ++ "?authuser=0"

/-! ## Meeting code pattern

Source regex (contentScript.js, PWA storage listener):
  ([a-z0-9]\x7b3,5\x7d-[a-z0-9]\x7b3,5\x7d-[a-z0-9]\x7b3,5\x7d) with the i flag.
JavaScript String.match with a non-global regex returns the leftmost match;
greedy repetition tries the longer count first and backtracks.  The code
destructures the first array element, i.e. the full matched substring, and
gets undefined (here: none) when there is no match. -/

/-- Character class [a-z0-9] under the case-insensitive flag. -/
def isCodeChar (c : Char) : Bool :=
  (('a' ≤ c) && (c ≤ 'z')) || (('A' ≤ c) && (c ≤ 'Z')) || (('0' ≤ c) && (c ≤ '9'))

/-- Splits off a segment of exactly n code characters, if present. -/
def splitCode (n : Nat) (cs : List Char) : Option (List Char × List Char) :=
  if ((cs.take n).length == n) && (cs.take n).all isCodeChar then
    some (cs.take n, cs.drop n)
  else none

/-- Repetition counts for a greedy match of a 3-to-5 block: longest first. -/
def greedyLens : List Nat := [5, 4, 3]

/-- Attempts to match the three dash-separated 3-to-5 character blocks at the
head of cs, returning the matched characters.  Trying counts longest first
models the greedy backtracking of the regex engine. -/
def matchCodeAt (cs : List Char) : Option (List Char) :=
  List.findSome? (fun l1 =>
    match splitCode l1 cs with
    | none => none
    | some (s1, r1) =>
      match r1 with
      | '-' :: r1b =>
        List.findSome? (fun l2 =>
          match splitCode l2 r1b with
          | none => none
          | some (s2, r2) =>
            match r2 with
            | '-' :: r2b =>
              List.findSome? (fun l3 =>
                match splitCode l3 r2b with
                | none => none
                | some (s3, _) => some (s1 ++ '-' :: s2 ++ '-' :: s3)) greedyLens
            | _ => none) greedyLens
      | _ => none) greedyLens

/-- Scans left to right for the first position admitting a match. -/
def scanMeetingCode : List Char → Option (List Char)
  | [] => none
  | c :: cs =>
    match matchCodeAt (c :: cs) with
    | some m => some m
    | none => scanMeetingCode cs

/-- Embedding of s.match(meetingCodeRegex) destructured to its first element:
the leftmost matched substring, or none when the pattern does not occur. -/
def extractMeetingCode (s : String) : Option String :=
  (scanMeetingCode s.data).map (fun cs => String.mk cs)

/-! ## The on-call classification (PWA storage listener)

Source:
  const onCall =
    !!currentMeetingCode && document.querySelector(callControlsSelector);
The DOM question of whether a call-controls element is rendered is an
environment input, passed as the boolean callControls. -/

/-- Embedding of the on-call test exactly as the code computes it: the
pathname matches the meeting code pattern and a call-controls element is
rendered.  A successful match is never the empty string, so the JavaScript
truthiness test coincides with isSome. -/
def onCallCodePred (pathname : String) (callControls : Bool) : Bool :=
  (extractMeetingCode pathname).isSome && callControls

/-- Modelled from the spec wording for comparison: on an active call exactly
when the meeting code pattern is present in the URL path, a call-controls
element is rendered, and the path is not the generic landing page. -/
def onCallSpecPred (pathname : String) (callControls : Bool) : Bool :=
  (extractMeetingCode pathname).isSome && callControls
    && (decide (pathname ≠ "/landing"))

/-! ## PWA handler branching and actions -/

/-- Externally visible effects of one invocation of the PWA storage change
listener, including those of switchToNewCall and of building the conflict
alert.  Clicking the alert buttons happens in a later event, not here. -/
inductive PwaAction where
  | closeOriginalTab
  | showConflictAlert
  | navigate (href : String)
  | setAutoJoinOverride (b : Bool)
  | startDevicePolling
deriving DecidableEq

/-- Branch taken by the PWA listener for a queryParams change. -/
inductive PwaBranch where
  | noEvent
  | sameMeeting
  | conflictAlert
  | navigateBranch
deriving DecidableEq

/-- Embedding of the branch structure of the PWA storage listener: sentinel
guard, then the same-meeting test, then the conflict test, else navigation.
The equality test mirrors the strict equality of the two match results,
where none stands for undefined (and undefined === undefined holds). -/
def pwaBranch (pathname : String) (callControls : Bool) (newVal : String) : PwaBranch :=
  if newVal = "__gmInitialState" then PwaBranch.noEvent
  else
    let currentMeetingCode := extractMeetingCode pathname
    let newMeetingCode := extractMeetingCode newVal
    let onCall := onCallCodePred pathname callControls
    if onCall && (newMeetingCode == currentMeetingCode) then PwaBranch.sameMeeting
    else if onCall then PwaBranch.conflictAlert
    else PwaBranch.navigateBranch

/-- Embedding of switchToNewCall: when the current href differs from the
destination, it signals tab close, optionally sets the auto-join override
(only when invoked from the conflict alert), and navigates; in every case it
signals tab close again and starts the device polling configuration. -/
def switchToNewCallActions (newPath currentHref : String) (fromAlert : Bool) :
    List PwaAction :=
  let newQueryParams := addAuthuser newPath
  let newHref := "https://meet.google.com/" ++ newQueryParams
  (if currentHref ≠ newHref then
    [PwaAction.closeOriginalTab]
      ++ (if fromAlert then [PwaAction.setAutoJoinOverride true] else [])
      ++ [PwaAction.navigate newHref]
   else [])
  ++ [PwaAction.closeOriginalTab, PwaAction.startDevicePolling]

/-- Actions performed by one invocation of the PWA storage listener on a
queryParams change carrying newVal. -/
def pwaHandlerActions (pathname : String) (callControls : Bool)
    (currentHref : String) (newVal : String) : List PwaAction :=
  match pwaBranch pathname callControls newVal with
  | PwaBranch.noEvent => []
  | PwaBranch.sameMeeting => [PwaAction.closeOriginalTab]
  | PwaBranch.conflictAlert => [PwaAction.showConflictAlert, PwaAction.closeOriginalTab]
  | PwaBranch.navigateBranch => switchToNewCallActions newVal currentHref false

/-! ## Ordinary tab handler

Source (contentScript.js, non PWA branch): on a change whose originatingTabId
has a truthy new value, append the redirect overlay; on a change carrying
googleMeetDeclinedUrl while the overlay element exists, remove it.  The
handler never reads queryParams. -/

/-- One storage change notification, projected to the new values of the keys
the content script reads.  A missing key means the change did not touch it. -/
structure StorageChanges where
  queryParams : Option String
  originatingTabId : Option String
  googleMeetDeclinedUrl : Option String
deriving DecidableEq

/-- Externally visible effects of the ordinary tab listener. -/
inductive TabAction where
  | insertOverlay
  | removeOverlay
deriving DecidableEq

/-- Embedding of the ordinary tab storage listener.  overlayPresent says
whether the overlay element was in the document when the event fired; the
getElementById lookup in the second branch also finds an overlay appended by
the first branch of the same invocation. -/
def ordinaryHandlerActions (changes : StorageChanges) (overlayPresent : Bool) :
    List TabAction :=
  let inserted :=
    match changes.originatingTabId with
    | some v => if v ≠ "" then [TabAction.insertOverlay] else []
    | none => []
  let overlayNow := overlayPresent || (inserted ≠ [])
  inserted ++
    (match changes.googleMeetDeclinedUrl with
     | some _ => if overlayNow then [TabAction.removeOverlay] else []
     | none => [])

/-! ## Auto-join countdown (startAutoJoinCountdown, contentScript.js)

The countdown keeps a local countdown variable, announces the start, and
every second decrements; while the decremented value stays positive it
re-displays, and it speaks a periodic announcement exactly when the
decremented value is divisible by five (the literal constant 5 in the code:
no configured interval is consulted).  When the decremented value is no
longer positive it announces completion, runs cleanup, re-resolves the join
button from the document and clicks it only if one was found.  The
environment is narrowed to the nominal run: the injected elements stay
visible (so the reinsertion branch never fires) and the cancel button state
is handled by a separate run function below. -/

/-- Observable events of a countdown run. -/
inductive CdEvent where
  | startAnnounce (secs : Nat)
  | periodicAnnounce (secs : Nat)
  | completionAnnounce
  | joinClick
  | cancelAnnounce
deriving DecidableEq

/-- Events of the remaining ticks of an uncancelled countdown whose current
value is c; joinAtEnd says whether findJoinButton finds a button in the live
document at the moment the countdown reaches zero.  A tick decrements first,
matching the prefix decrement in the source. -/
def cdTicks (joinAtEnd : Bool) : Nat → List CdEvent
  | 0 => CdEvent.completionAnnounce :: (if joinAtEnd then [CdEvent.joinClick] else [])
  | 1 => CdEvent.completionAnnounce :: (if joinAtEnd then [CdEvent.joinClick] else [])
  | c + 2 =>
    (if (c + 1) % 5 = 0 then [CdEvent.periodicAnnounce (c + 1)] else [])
      ++ cdTicks joinAtEnd (c + 1)

/-- Full event trace of startAutoJoinCountdown on the nominal run:
joinAtStart is whether findJoinButton succeeds on entry (otherwise the
function returns before doing anything), duration is the configured countdown
duration, joinAtEnd is whether a join button exists when zero is reached. -/
def startAutoJoinCountdownRun (joinAtStart : Bool) (duration : Nat)
    (joinAtEnd : Bool) : List CdEvent :=
  if joinAtStart then CdEvent.startAnnounce duration :: cdTicks joinAtEnd duration
  else []

/-- Number of periodic announcements in a trace. -/
def countPeriodic (evs : List CdEvent) : Nat :=
  (evs.filter (fun e =>
    match e with
    | CdEvent.periodicAnnounce _ => true
    | _ => false)).length

/-- State of the resources a countdown owns: its interval timer and its two
injected elements. -/
structure CdUiState where
  timerActive : Bool
  displayInDom : Bool
  cancelBtnInDom : Bool
deriving DecidableEq

/-- Embedding of the cleanup function: clearInterval and null the handle,
remove the display if attached, remove the cancel button if attached.  In
every case the resulting state holds no timer and no attached elements. -/
def cdCleanup (_ : CdUiState) : CdUiState :=
  { timerActive := false, displayInDom := false, cancelBtnInDom := false }

/-- Events of the remaining ticks of a countdown whose cancel button is
pressed at the moment the remaining value equals cancelAt: the click handler
announces the cancellation and runs cleanup, which clears the interval, so
no further tick fires.  Meaningful for 1 ≤ cancelAt ≤ current value: the
button can only be pressed while the countdown is still running. -/
def cdTicksWithCancel (cancelAt : Nat) (joinAtEnd : Bool) : Nat → List CdEvent
  | 0 =>
    if 0 = cancelAt then [CdEvent.cancelAnnounce]
    else CdEvent.completionAnnounce :: (if joinAtEnd then [CdEvent.joinClick] else [])
  | 1 =>
    if 1 = cancelAt then [CdEvent.cancelAnnounce]
    else CdEvent.completionAnnounce :: (if joinAtEnd then [CdEvent.joinClick] else [])
  | c + 2 =>
    if c + 2 = cancelAt then [CdEvent.cancelAnnounce]
    else
      (if (c + 1) % 5 = 0 then [CdEvent.periodicAnnounce (c + 1)] else [])
        ++ cdTicksWithCancel cancelAt joinAtEnd (c + 1)

/-- Full event trace of a countdown that is cancelled when the remaining
value equals cancelAt. -/
def cdRunWithCancel (duration cancelAt : Nat) (joinAtEnd : Bool) : List CdEvent :=
  CdEvent.startAnnounce duration :: cdTicksWithCancel cancelAt joinAtEnd duration

/-! ## Countdowns per page context

startAutoJoinCountdown allocates a fresh interval handle and fresh display
and cancel elements in local variables on every invocation; the source holds
no reference to any previously started countdown and contains no code that
clears another interval or removes another pair of injected elements.  The
page level model therefore records the multiset of running countdowns, and
an invocation appends a new one (when a join button is present) and leaves
the existing ones untouched. -/

/-- Running countdowns of one page context, listed by their durations. -/
structure PageCountdownState where
  activeCountdowns : List Nat
deriving DecidableEq

/-- Effect of one invocation of startAutoJoinCountdown on the set of running
countdowns: nothing when no join button is found, otherwise one more running
countdown; no existing countdown is cancelled anywhere in the function. -/
def startAutoJoinCountdownPage (joinVisible : Bool) (duration : Nat)
    (s : PageCountdownState) : PageCountdownState :=
  if joinVisible then { activeCountdowns := s.activeCountdowns ++ [duration] }
  else s

/-! ## Bounded pollers (runInterval inside disableVideoAndMicConfig)

Source:
  function runInterval(fn, intervalMs = 300, timeoutMs = 15000) \x7b
    const start = Date.now();
    const interval = setInterval(() => \x7b
      const done = fn();
      if (done || Date.now() - start > timeoutMs) clearInterval(interval);
    \x7d, intervalMs);
  \x7d
Ticks are numbered 1, 2, ... and tick k fires at elapsed time
intervalMs * k; a tick executes exactly when no earlier tick concluded
(returned done or saw the timeout exceeded). -/

def pollIntervalMs : Nat := 300

def pollTimeoutMs : Nat := 15000

/-- The clearing condition evaluated at tick k for the callback cond: the
callback reported done, or the elapsed time exceeds the timeout. -/
def pollStops (cond : Nat → Bool) (k : Nat) : Bool :=
  cond k || decide (pollIntervalMs * k > pollTimeoutMs)

/-- Tick k of the poller actually executes: it is a real tick (k ≥ 1) and no
earlier tick cleared the interval. -/
def pollExecuted (cond : Nat → Bool) (k : Nat) : Prop :=
  1 ≤ k ∧ ∀ j, j < k → 1 ≤ j → pollStops cond j = false

/-- Tick k executes and its callback succeeds (for the mute pollers: the
control is present and is clicked; for the override poller: the join button
is present off the landing page, the flag is cleared and the button
clicked). -/
def pollFires (cond : Nat → Bool) (k : Nat) : Prop :=
  pollExecuted cond k ∧ cond k = true

instance pollExecutedDec (cond : Nat → Bool) (k : Nat) :
    Decidable (pollExecuted cond k) :=
  decidable_of_iff
    (1 ≤ k ∧ ∀ j ∈ List.range k, 1 ≤ j → pollStops cond j = false)
    (by simp [pollExecuted, List.mem_range])

instance pollFiresDec (cond : Nat → Bool) (k : Nat) :
    Decidable (pollFires cond k) :=
  decidable_of_iff (pollExecuted cond k ∧ cond k = true) Iff.rfl

/-! ## disableVideoAndMicConfig: stored preferences and the join branch -/

/-- Values read from the extension storage by disableVideoAndMicConfig.
countdownDuration is the stored number, with 0 standing for any falsy stored
value (absent, zero or NaN), over which the source applies the default 10
via the JavaScript or-with-10 idiom. -/
structure StorageRes where
  disableMic : Bool
  disableVideo : Bool
  shouldAutoJoinOverride : Bool
  autoJoin : Bool
  countdownDuration : Nat
deriving DecidableEq

/-- Which join automation disableVideoAndMicConfig starts. -/
inductive JoinBranch where
  | overrideJoin
  | countdownJoin (duration : Nat)
  | noJoin
deriving DecidableEq

/-- Embedding of the join related branch of disableVideoAndMicConfig: only
when joining a new meeting; the one-shot override takes precedence and never
starts a countdown; otherwise the autoJoin preference starts the countdown
poller with the stored duration defaulted to 10. -/
def joinBranch (joiningNewMeeting : Bool) (res : StorageRes) : JoinBranch :=
  if joiningNewMeeting then
    if res.shouldAutoJoinOverride then JoinBranch.overrideJoin
    else if res.autoJoin then
      JoinBranch.countdownJoin
        (if res.countdownDuration = 0 then 10 else res.countdownDuration)
    else JoinBranch.noJoin
  else JoinBranch.noJoin

/-- Poll callback condition of the override path: findJoinButton succeeds and
the pathname at that tick is not the landing page. -/
def overrideCond (joinPresent : Nat → Bool) (pathAt : Nat → String) (k : Nat) : Bool :=
  joinPresent k && decide (pathAt k ≠ "/landing")

/-- Storage and DOM effects of the successful override tick, in source
order: the flag is written false first, then the join button is clicked. -/
inductive OverrideAction where
  | clearOverrideFlag
  | clickJoin
deriving DecidableEq

/-- Embedding of the success branch of the override poll callback. -/
def overrideFireActions : List OverrideAction :=
  [OverrideAction.clearOverrideFlag, OverrideAction.clickJoin]

/-! ## Helper lemmas -/

theorem countPeriodic_append (a b : List CdEvent) :
    countPeriodic (a ++ b) = countPeriodic a + countPeriodic b := by
  simp [countPeriodic, List.filter_append]

theorem countPeriodic_cdTicks (j : Bool) :
    (c : Nat) → countPeriodic (cdTicks j c) = (c - 1) / 5
  | 0 => by cases j <;> simp [cdTicks, countPeriodic]
  | 1 => by cases j <;> simp [cdTicks, countPeriodic]
  | c + 2 => by
    have ih := countPeriodic_cdTicks j (c + 1)
    rw [cdTicks, countPeriodic_append, ih]
    by_cases h : (c + 1) % 5 = 0
    · simp only [h, if_true]
      simp [countPeriodic]
      omega
    · simp only [h, if_false]
      simp [countPeriodic]
      omega

theorem periodic_mem_cdTicks (j : Bool) :
    (c : Nat) → ∀ k, CdEvent.periodicAnnounce k ∈ cdTicks j c →
      k % 5 = 0 ∧ 1 ≤ k ∧ k < c
  | 0, k => by cases j <;> simp [cdTicks]
  | 1, k => by cases j <;> simp [cdTicks]
  | c + 2, k => by
    have ih := periodic_mem_cdTicks j (c + 1) k
    intro hmem
    rw [cdTicks, List.mem_append] at hmem
    rcases hmem with h1 | h2
    · by_cases h : (c + 1) % 5 = 0
      · simp only [h, if_true, List.mem_singleton, CdEvent.periodicAnnounce.injEq] at h1
        subst h1
        exact ⟨h, by omega, by omega⟩
      · simp [h] at h1
    · have := ih h2
      exact ⟨this.1, this.2.1, by omega⟩

theorem completion_mem_cdTicks (j : Bool) :
    (c : Nat) → CdEvent.completionAnnounce ∈ cdTicks j c
  | 0 => by simp [cdTicks]
  | 1 => by simp [cdTicks]
  | c + 2 => by
    have ih := completion_mem_cdTicks j (c + 1)
    rw [cdTicks, List.mem_append]
    exact Or.inr ih

theorem joinClick_mem_cdTicks (j : Bool) :
    (c : Nat) → (CdEvent.joinClick ∈ cdTicks j c ↔ j = true)
  | 0 => by cases j <;> simp [cdTicks]
  | 1 => by cases j <;> simp [cdTicks]
  | c + 2 => by
    have ih := joinClick_mem_cdTicks j (c + 1)
    by_cases h : (c + 1) % 5 = 0 <;> simp [cdTicks, h, ih]

theorem cancel_run_cdTicksWithCancel (t : Nat) (j : Bool) :
    (c : Nat) → 1 ≤ t → t ≤ c →
      CdEvent.joinClick ∉ cdTicksWithCancel t j c ∧
      CdEvent.cancelAnnounce ∈ cdTicksWithCancel t j c ∧
      CdEvent.completionAnnounce ∉ cdTicksWithCancel t j c
  | 0, h1, h2 => absurd (h1.trans h2) (by omega)
  | 1, h1, h2 => by
    have ht : t = 1 := by omega
    subst ht
    simp [cdTicksWithCancel]
  | c + 2, h1, h2 => by
    by_cases h : c + 2 = t
    · simp [cdTicksWithCancel, h]
    · have ih := cancel_run_cdTicksWithCancel t j (c + 1) h1 (by omega)
      by_cases h5 : (c + 1) % 5 = 0 <;>
        simp [cdTicksWithCancel, h, h5, List.mem_append, ih.1, ih.2.1, ih.2.2]

theorem pollExecuted_le (cond : Nat → Bool) (k : Nat)
    (h : pollExecuted cond k) : k ≤ 51 := by
  by_contra hgt
  have h51 := h.2 51 (by omega) (by omega)
  simp [pollStops, pollIntervalMs, pollTimeoutMs] at h51

theorem pollFires_unique (cond : Nat → Bool) (k1 k2 : Nat)
    (h1 : pollFires cond k1) (h2 : pollFires cond k2) : k1 = k2 := by
  rcases Nat.lt_trichotomy k1 k2 with h | h | h
  · have hs := h2.1.2 k1 h h1.1.1
    rw [pollStops, h1.2] at hs
    simp at hs
  · exact h
  · have hs := h1.1.2 k2 h h2.1.1
    rw [pollStops, h2.2] at hs
    simp at hs

theorem pollFires_no_later (cond : Nat → Bool) (k m : Nat)
    (h : pollFires cond k) (hlt : k < m) : ¬ pollExecuted cond m := by
  intro hm
  have hs := hm.2 k hlt h.1.1
  rw [pollStops, h.2] at hs
  simp at hs

theorem extractMeetingCode_landing : extractMeetingCode "/landing" = none := by
  decide

/-! ## Claim theorems -/

/-- Claim C1, counterexample: with duration 10 and a configured announcement
interval of 1 (which satisfies 1 ≤ I ≤ 30), the claim demands
floor(10 / 1) = 10 periodic announcements strictly between start and
completion, but the countdown emits exactly one periodic announcement (at
remaining 5): the schedule follows the literal constant 5 in the source, and
the configured interval is never consulted. -/
theorem C1_counterexample :
    countPeriodic (startAutoJoinCountdownRun true 10 true) = 1 ∧
    (1 ≤ 1 ∧ 1 ≤ 30) ∧ 10 / 1 = 10 ∧
    countPeriodic (startAutoJoinCountdownRun true 10 true) ≠ 10 / 1 := by
  decide

/-- Claim C1, amended: a countdown of duration D emits exactly
floor((D - 1) / 5) periodic spoken announcements strictly between the start
announcement and the completion announcement, each emitted when the
remaining time is a positive multiple of the fixed constant 5; the
configured announcement interval plays no part in the schedule. -/
theorem C1_periodic_schedule : ∀ (duration : Nat) (joinAtEnd : Bool),
    countPeriodic (startAutoJoinCountdownRun true duration joinAtEnd) =
      (duration - 1) / 5 ∧
    ∀ k, CdEvent.periodicAnnounce k ∈ startAutoJoinCountdownRun true duration joinAtEnd →
      k % 5 = 0 ∧ 1 ≤ k ∧ k < duration := by
  intro duration j
  constructor
  · have h := countPeriodic_cdTicks j duration
    simpa [startAutoJoinCountdownRun, countPeriodic] using h
  · intro k hk
    simp only [startAutoJoinCountdownRun, if_true, List.mem_cons] at hk
    rcases hk with h | h
    · exact absurd h (by simp)
    · exact periodic_mem_cdTicks j duration k h

/-- Witness for the amended claim C1 at duration 12: two periodic
announcements, and the announcement at remaining 10 is a multiple of 5
strictly inside the run. -/
theorem C1_periodic_schedule_witness :
    countPeriodic (startAutoJoinCountdownRun true 12 true) = 2 ∧
    (10 % 5 = 0 ∧ 1 ≤ 10 ∧ 10 < 12) := by
  have h := C1_periodic_schedule 12 true
  exact ⟨h.1.trans (by decide), h.2 10 (by decide)⟩

/-- Claim C2, counterexample: invoking startAutoJoinCountdown while a
countdown is already running does not cancel the previous one; after two
invocations with a join button present, two countdowns are active in the
page context, violating the at-most-one invariant the claim states. -/
theorem C2_counterexample :
    (startAutoJoinCountdownPage true 10
      (startAutoJoinCountdownPage true 10 ⟨[]⟩)).activeCountdowns.length = 2 := by
  decide

/-- Claim C2, amended: startAutoJoinCountdown never cancels a previously
running countdown; whenever a join button is present, an invocation adds one
more active countdown and every previously active countdown stays active, so
several countdowns can run concurrently in one page context. -/
theorem C2_no_cancellation : ∀ (s : PageCountdownState) (d : Nat),
    (startAutoJoinCountdownPage true d s).activeCountdowns =
      s.activeCountdowns ++ [d] ∧
    ∀ c, c ∈ s.activeCountdowns →
      c ∈ (startAutoJoinCountdownPage true d s).activeCountdowns := by
  intro s d
  constructor
  · simp [startAutoJoinCountdownPage]
  · intro c hc
    simp [startAutoJoinCountdownPage, hc]

/-- Witness for the amended claim C2: starting a countdown of duration 10
while one of duration 7 runs leaves both active. -/
theorem C2_no_cancellation_witness :
    (startAutoJoinCountdownPage true 10 ⟨[7]⟩).activeCountdowns = [7, 10] ∧
    7 ∈ (startAutoJoinCountdownPage true 10 ⟨[7]⟩).activeCountdowns := by
  have h := C2_no_cancellation ⟨[7]⟩ 10
  exact ⟨h.1.trans (by decide), h.2 7 (by decide)⟩

/-- Claim C3: for a non sentinel queryParams change, the on-call
classification computed by the PWA listener coincides with the three part
predicate of the spec (meeting code pattern in the path, call controls
rendered, path not the generic landing page) — the landing page path cannot
match the meeting code pattern, so the third conjunct is implied — and the
same-meeting / conflict / navigate branching is exactly the one driven by
that predicate. -/
theorem C3_onCall_classification : ∀ (pathname : String) (callControls : Bool)
    (newVal : String), newVal ≠ "__gmInitialState" →
    onCallCodePred pathname callControls = onCallSpecPred pathname callControls ∧
    pwaBranch pathname callControls newVal =
      (if onCallSpecPred pathname callControls
          && (extractMeetingCode newVal == extractMeetingCode pathname)
       then PwaBranch.sameMeeting
       else if onCallSpecPred pathname callControls then PwaBranch.conflictAlert
       else PwaBranch.navigateBranch) := by
  intro p c nv hnv
  have hpred : onCallCodePred p c = onCallSpecPred p c := by
    by_cases hp : p = "/landing"
    · subst hp
      simp [onCallCodePred, onCallSpecPred, extractMeetingCode_landing]
    · simp [onCallCodePred, onCallSpecPred, hp]
  refine ⟨hpred, ?_⟩
  rw [← hpred]
  simp only [pwaBranch, hnv, if_false]

/-- Witness for claim C3 on a page showing a call with the same meeting code
as the pending one. -/
theorem C3_onCall_classification_witness :
    onCallCodePred "/abc-defg-hij" true = onCallSpecPred "/abc-defg-hij" true ∧
    pwaBranch "/abc-defg-hij" true "abc-defg-hij" = PwaBranch.sameMeeting := by
  have h := C3_onCall_classification "/abc-defg-hij" true "abc-defg-hij" (by decide)
  exact ⟨h.1, h.2.trans (by decide)⟩

/-- Claim C4, counterexample: the code tests for authuser= only inside the
branch where the path contains a question mark, so a path that contains
authuser= but no question mark is not left unchanged as the claim states: it
gets a question mark and a second authuser parameter appended. -/
theorem C4_counterexample :
    strIncludes "authuser=1" "authuser=" = true ∧
    addAuthuser "authuser=1" ≠ "authuser=1" := by
  decide

/-- Claim C4, amended: if p contains no question mark the result is
p followed by the new query string authuser=0 (whether or not p contains
authuser=); if p contains a question mark but not authuser=, the result is p
with the parameter appended by ampersand; if p contains both a question mark
and authuser=, p is returned unchanged. -/
theorem C4_authuser_cases : ∀ p : String,
    (strIncludes p "?" = false → addAuthuser p = p ++ "?authuser=0") ∧
    (strIncludes p "?" = true → strIncludes p "authuser=" = false →
      addAuthuser p = p ++ "&authuser=0") ∧
    (strIncludes p "?" = true → strIncludes p "authuser=" = true →
      addAuthuser p = p) :=
  fun p =>
    ⟨fun h => by simp [addAuthuser, h],
     fun h1 h2 => by simp [addAuthuser, h1, h2],
     fun h1 h2 => by simp [addAuthuser, h1, h2]⟩

/-- Witness for the amended claim C4 on the three kinds of paths. -/
theorem C4_authuser_cases_witness :
    addAuthuser "abc-defg-hij" = "abc-defg-hij?authuser=0" ∧
    addAuthuser "abc-defg-hij?hs=1" = "abc-defg-hij?hs=1&authuser=0" ∧
    addAuthuser "abc-defg-hij?authuser=1" = "abc-defg-hij?authuser=1" := by
  refine ⟨((C4_authuser_cases "abc-defg-hij").1 (by decide)).trans (by decide),
    ((C4_authuser_cases "abc-defg-hij?hs=1").2.1 (by decide) (by decide)).trans (by decide),
    (C4_authuser_cases "abc-defg-hij?authuser=1").2.2 (by decide) (by decide)⟩

/-- Claim C5: switchToNewCall is idempotent with respect to navigation: when
the current href already equals the destination href (the meet origin
followed by the authuser augmented path), no navigation action is emitted,
whatever the fromAlert flag. -/
theorem C5_navigation_idempotent : ∀ (newPath currentHref : String) (fromAlert : Bool),
    currentHref = "https://meet.google.com/" ++ addAuthuser newPath →
    ∀ href, PwaAction.navigate href ∉ switchToNewCallActions newPath currentHref fromAlert := by
  intro np ch fa h href
  simp [switchToNewCallActions, h]

/-- Witness for claim C5: already sitting on the destination URL. -/
theorem C5_navigation_idempotent_witness :
    PwaAction.navigate "https://meet.google.com/abc-defg-hij?authuser=0" ∉
      switchToNewCallActions "abc-defg-hij"
        "https://meet.google.com/abc-defg-hij?authuser=0" true :=
  C5_navigation_idempotent "abc-defg-hij"
    "https://meet.google.com/abc-defg-hij?authuser=0" true (by decide)
    "https://meet.google.com/abc-defg-hij?authuser=0"

/-- Claim C6: a queryParams change to the sentinel is inert: the PWA
listener emits no action for it, and the ordinary tab listener computes
exactly what it would compute had the event not carried the queryParams key
at all, so no navigation, alerting, tab close signalling or overlay
insertion happens in response to the sentinel change. -/
theorem C6_sentinel_inert : ∀ (pathname : String) (callControls : Bool)
    (currentHref : String) (changes : StorageChanges) (overlayPresent : Bool)
    (newVal : String),
    changes.queryParams = some newVal → newVal = "__gmInitialState" →
    pwaHandlerActions pathname callControls currentHref newVal = [] ∧
    ordinaryHandlerActions changes overlayPresent =
      ordinaryHandlerActions { changes with queryParams := none } overlayPresent := by
  intro p c h ch op nv hq hs
  constructor
  · subst hs
    simp [pwaHandlerActions, pwaBranch]
  · rfl

/-- Witness for claim C6: a sentinel reset event that also blanks the
originating tab id, as ignoreNewMeeting writes it. -/
theorem C6_sentinel_inert_witness :
    pwaHandlerActions "/abc-defg-hij" true "https://meet.google.com/"
      "__gmInitialState" = [] ∧
    ordinaryHandlerActions ⟨some "__gmInitialState", some "", none⟩ false =
      ordinaryHandlerActions ⟨none, some "", none⟩ false :=
  C6_sentinel_inert "/abc-defg-hij" true "https://meet.google.com/"
    ⟨some "__gmInitialState", some "", none⟩ false "__gmInitialState" rfl rfl

/-- Claim C7: cancelling a countdown while the remaining time is positive
means the join control is never clicked by that countdown: the trace of a
run cancelled at a positive remaining value contains no join click and no
completion announcement but does contain the cancellation announcement, and
the cleanup run by the cancel handler leaves no timer and no injected
element behind. -/
theorem C7_cancel_no_join : ∀ (duration cancelAt : Nat) (joinAtEnd : Bool)
    (s : CdUiState), 1 ≤ cancelAt → cancelAt ≤ duration →
    CdEvent.joinClick ∉ cdRunWithCancel duration cancelAt joinAtEnd ∧
    CdEvent.cancelAnnounce ∈ cdRunWithCancel duration cancelAt joinAtEnd ∧
    CdEvent.completionAnnounce ∉ cdRunWithCancel duration cancelAt joinAtEnd ∧
    cdCleanup s =
      { timerActive := false, displayInDom := false, cancelBtnInDom := false } := by
  intro d t j s h1 h2
  have h := cancel_run_cdTicksWithCancel t j d h1 h2
  refine ⟨?_, ?_, ?_, rfl⟩
  · simp [cdRunWithCancel, h.1]
  · simp [cdRunWithCancel, h.2.1]
  · simp [cdRunWithCancel, h.2.2]

/-- Witness for claim C7: cancelling at remaining 3 out of 10. -/
theorem C7_cancel_no_join_witness :
    CdEvent.joinClick ∉ cdRunWithCancel 10 3 true ∧
    CdEvent.cancelAnnounce ∈ cdRunWithCancel 10 3 true ∧
    CdEvent.completionAnnounce ∉ cdRunWithCancel 10 3 true ∧
    cdCleanup ⟨true, true, true⟩ =
      { timerActive := false, displayInDom := false, cancelBtnInDom := false } :=
  C7_cancel_no_join 10 3 true ⟨true, true, true⟩ (by decide) (by decide)

/-- Claim C8: every auto-mute polling loop terminates: no tick beyond the
51st ever executes (tick 51 is the first whose elapsed time 300 times 51
exceeds the 15000 millisecond timeout), the control is clicked at most once
(two successful ticks coincide), polling stops immediately after the click
(no tick executes past a successful one), and if the control never appears
no tick ever succeeds, so no click and no error occur. -/
theorem C8_poller_terminates : ∀ (present : Nat → Bool),
    (∀ k, pollExecuted present k → k ≤ 51) ∧
    (∀ k1 k2, pollFires present k1 → pollFires present k2 → k1 = k2) ∧
    (∀ k m, pollFires present k → k < m → ¬ pollExecuted present m) ∧
    ((∀ k, present k = false) → ∀ k, ¬ pollFires present k) := by
  intro present
  refine ⟨fun k h => pollExecuted_le present k h,
          fun k1 k2 h1 h2 => pollFires_unique present k1 k2 h1 h2,
          fun k m h hlt => pollFires_no_later present k m h hlt,
          fun hnone k hf => ?_⟩
  have hc := hf.2
  rw [hnone k] at hc
  exact Bool.false_ne_true hc

/-- Witness for claim C8: a control appearing at tick 3 gives a tick within
the bound and stops the poller from executing tick 5. -/
theorem C8_poller_terminates_witness :
    (3 : Nat) ≤ 51 ∧ ¬ pollExecuted (fun k => decide (k = 3)) 5 := by
  have h := C8_poller_terminates (fun k => decide (k = 3))
  exact ⟨h.1 3 (by decide), h.2.2.1 3 5 (by decide) (by decide)⟩

/-- Claim C9: with the one-shot override flag set, disableVideoAndMicConfig
takes the override branch and never the countdown branch; the override poll
succeeds at most once, at a tick where the join control is present off the
landing page; the successful tick first writes the flag to false and then
clicks the join control once; polling stops right after success, no tick
runs past the 51st, and if the join control never appears nothing is
clicked. -/
theorem C9_override_one_shot : ∀ (res : StorageRes) (joinPresent : Nat → Bool)
    (pathAt : Nat → String),
    res.shouldAutoJoinOverride = true →
    joinBranch true res = JoinBranch.overrideJoin ∧
    overrideFireActions = [OverrideAction.clearOverrideFlag, OverrideAction.clickJoin] ∧
    (∀ k, pollExecuted (overrideCond joinPresent pathAt) k → k ≤ 51) ∧
    (∀ k1 k2, pollFires (overrideCond joinPresent pathAt) k1 →
      pollFires (overrideCond joinPresent pathAt) k2 → k1 = k2) ∧
    (∀ k m, pollFires (overrideCond joinPresent pathAt) k → k < m →
      ¬ pollExecuted (overrideCond joinPresent pathAt) m) ∧
    ((∀ k, joinPresent k = false) →
      ∀ k, ¬ pollFires (overrideCond joinPresent pathAt) k) := by
  intro res jp pa hov
  refine ⟨by simp [joinBranch, hov], rfl,
          fun k h => pollExecuted_le _ k h,
          fun k1 k2 h1 h2 => pollFires_unique _ k1 k2 h1 h2,
          fun k m h hlt => pollFires_no_later _ k m h hlt,
          fun hnone k hf => ?_⟩
  have hc := hf.2
  simp [overrideCond, hnone k] at hc

/-- Witness for claim C9: override set, join control appearing at tick 2 on
a meeting page. -/
theorem C9_override_one_shot_witness :
    joinBranch true ⟨false, false, true, false, 0⟩ = JoinBranch.overrideJoin ∧
    ¬ pollExecuted
        (overrideCond (fun k => decide (k = 2)) (fun _ => "/abc-defg-hij")) 4 := by
  have h := C9_override_one_shot ⟨false, false, true, false, 0⟩
    (fun k => decide (k = 2)) (fun _ => "/abc-defg-hij") rfl
  exact ⟨h.1, h.2.2.2.2.1 2 4 (by decide) (by decide)⟩

/-- Claim C10: when a countdown reaches zero, the join control is resolved
from the live document at that moment: the completion announcement is always
in the trace and the cleanup still tears everything down, while the join
click is in the trace exactly when a join control exists at the moment zero
is reached, independently of the button found at the start; absence of the
control causes no click and no error. -/
theorem C10_completion_reresolve : ∀ (duration : Nat) (joinAtEnd : Bool)
    (s : CdUiState),
    CdEvent.completionAnnounce ∈ startAutoJoinCountdownRun true duration joinAtEnd ∧
    (CdEvent.joinClick ∈ startAutoJoinCountdownRun true duration joinAtEnd ↔
      joinAtEnd = true) ∧
    cdCleanup s =
      { timerActive := false, displayInDom := false, cancelBtnInDom := false } := by
  intro d j s
  refine ⟨?_, ?_, rfl⟩
  · simp [startAutoJoinCountdownRun, completion_mem_cdTicks j d]
  · simp [startAutoJoinCountdownRun, joinClick_mem_cdTicks j d]
